import Mathlib

set_option autoImplicit false

/-!
Shallow embedding of the Recommendation & Activity Engine of the
`agentic-file-recommender` backend
(`backend/agents/recommendation_agent.py`, `backend/agents/activity_agent.py`,
tables from `backend/db.py`).

Modelling conventions:
* SQLite tables are lists of row structures; row order models table order.
* Timestamps are integer epoch seconds; `timedelta.days` is floor division
  by 86400; the SQL window `datetime('now', '-5 minutes')` and Python's
  `datetime.now()` are modelled by a single integer clock `now`.
* Float arithmetic is modelled over the reals `ℝ`.
* A nullable SQL column is an `Option`.
* Exceptions that the Python code can raise inside `recommend_similar`'s
  `try` block are modelled with `Except PyError`; the enclosing
  `except Exception: return []` handler is the function `orEmpty`.
-/

namespace AFR

/-- A row of the `files` table (`db.py`, `init_db`).  `lastModified` is the
parsed `last_modified` column: `none` models a value on which
`datetime.fromisoformat` raises (`TypeError`/`ValueError`). -/
structure FileRow where
  id : Int
  path : String
  lastModified : Option Int
  deriving Repr, DecidableEq

/-- A row of the `file_content` table: nullable text preview and nullable
embedding blob (decoded with `np.frombuffer` to a float vector). -/
structure ContentRow where
  fileId : Int
  contentPreview : Option String
  embeddingVector : Option (List ℝ)

/-- A row of the `file_activity` table. -/
structure ActivityRow where
  fileId : Int
  lastAccessed : Int
  accessCount : Int
  deriving Repr, DecidableEq

/-- A row of the `file_cooccurrence` table.  `co_count` is nullable in the
schema (`DEFAULT 0`), hence an `Option Int`. -/
structure EdgeRow where
  fileId1 : Int
  fileId2 : Int
  coCount : Option Int
  deriving Repr, DecidableEq

/-- The SQLite database state.  `cooccurrenceTableExists` models whether the
`file_cooccurrence` table exists (`recommendation_agent.py` probes
`sqlite_master` for it; `activity_agent.record_cooccurrence` swallows the
`no such table` error in its `except` block). -/
structure DB where
  files : List FileRow
  fileContent : List ContentRow
  fileActivity : List ActivityRow
  cooccurrenceTableExists : Bool
  fileCooccurrence : List EdgeRow

/-- `SELECT id FROM files WHERE path = ?` (first matching row). -/
def lookupFileId (db : DB) (path : String) : Option Int :=
  (db.files.find? (fun f => f.path == path)).map (·.id)

/-! ## Activity agent (`backend/agents/activity_agent.py`) -/

/-- `self.cooccurrence_window = timedelta(minutes=5)`, in seconds. -/
def cooccurrenceWindow : Int := 300

/-- `INSERT INTO file_cooccurrence (file_id_1, file_id_2, co_count) VALUES (?, ?, 1)
ON CONFLICT(file_id_1, file_id_2) DO UPDATE SET co_count = co_count + 1`.
In SQL, `NULL + 1` is `NULL`, hence `Option.map` on the stored count. -/
def bumpEdge : List EdgeRow → Int → Int → List EdgeRow
  | [], lo, hi => [⟨lo, hi, some 1⟩]
  | e :: es, lo, hi =>
    if e.fileId1 = lo ∧ e.fileId2 = hi then
      { e with coCount := e.coCount.map (· + 1) } :: es
    else
      e :: bumpEdge es lo hi

/-- `ActivityAgent.record_cooccurrence` (`activity_agent.py` lines 59-79):
no-op on a self pair; otherwise swaps so that `file_id_1 < file_id_2` and
upserts the edge.  If the `file_cooccurrence` table does not exist the
`INSERT` raises and the `except` block leaves the state unchanged. -/
def record_cooccurrence (db : DB) (fileId1 fileId2 : Int) : DB :=
  if fileId1 = fileId2 then db
  else if db.cooccurrenceTableExists then
    { db with fileCooccurrence :=
        bumpEdge db.fileCooccurrence (min fileId1 fileId2) (max fileId1 fileId2) }
  else db

/-- `INSERT INTO file_activity (file_id, last_accessed, access_count) VALUES (?, ?, 1)
ON CONFLICT(file_id) DO UPDATE SET last_accessed = ?, access_count = access_count + 1`. -/
def upsertActivity : List ActivityRow → Int → Int → List ActivityRow
  | [], fid, now => [⟨fid, now, 1⟩]
  | a :: as, fid, now =>
    if a.fileId = fid then
      { a with lastAccessed := now, accessCount := a.accessCount + 1 } :: as
    else
      a :: upsertActivity as fid now

/-- `ActivityAgent.record_access` (`activity_agent.py` lines 16-57): look up
the file id (returning `false` when the path is unknown), upsert the activity
row, then bump a co-occurrence edge for every other file whose
`last_accessed` lies within the trailing 5-minute window. -/
def record_access (db : DB) (now : Int) (filePath : String) : Bool × DB :=
  match lookupFileId db filePath with
  | none => (false, db)
  | some fileId =>
    let db1 : DB := { db with fileActivity := upsertActivity db.fileActivity fileId now }
    let recent := db1.fileActivity.filter
      (fun a => a.fileId != fileId && decide (now - cooccurrenceWindow ≤ a.lastAccessed))
    (true, recent.foldl (fun d a => record_cooccurrence d fileId a.fileId) db1)

/-! ## Recommendation agent (`backend/agents/recommendation_agent.py`) -/

/-- Sum of squared components. -/
def sumSq (v : List ℝ) : ℝ := (v.map (fun x => x ^ 2)).sum

/-- `np.linalg.norm` of a one-dimensional vector: the square root of the sum
of squared components. -/
noncomputable def l2norm (v : List ℝ) : ℝ := Real.sqrt (sumSq v)

/-- Componentwise difference `query_embedding - stored_embedding` of two
equal-length vectors. -/
def vsub (q c : List ℝ) : List ℝ := List.zipWith (fun x y => x - y) q c

/-- `float(1 - np.linalg.norm(query_embedding - stored_embedding))`
(`recommend_similar`, line 301). -/
noncomputable def similarity (q c : List ℝ) : ℝ := 1 - l2norm (vsub q c)

/-- `(now - t).days` for two timestamps in epoch seconds:
`timedelta.days` floors towards minus infinity. -/
def daysBetween (t now : Int) : Int := (now - t).fdiv 86400

/-- `SELECT ... FROM file_activity WHERE file_id = ?`, first matching row. -/
def lookupActivity (rows : List ActivityRow) (fid : Int) : Option ActivityRow :=
  rows.find? (fun a => a.fileId == fid)

/-- `RecommendationAgent._get_recency_score` (lines 120-176): `0.0` when the
path has no `files` row; otherwise
`0.4 * max(0, min(1, exp(-days_since_modified/30)))` (or `0.0` when
`last_modified` fails to parse) plus
`0.6 * max(0, min(1, exp(-days_since_accessed/15)))` (or `0.0` when the
`LEFT JOIN` produced no `last_accessed`). -/
noncomputable def recency_score (db : DB) (now : Int) (path : String) : ℝ :=
  match db.files.find? (fun f => f.path == path) with
  | none => 0
  | some f =>
    let modificationScore : ℝ :=
      match f.lastModified with
      | none => 0
      | some tm => max 0 (min 1 (Real.exp (-(daysBetween tm now : ℝ) / 30)))
    let accessScore : ℝ :=
      match lookupActivity db.fileActivity f.id with
      | none => 0
      | some a => max 0 (min 1 (Real.exp (-(daysBetween a.lastAccessed now : ℝ) / 15)))
    0.4 * modificationScore + 0.6 * accessScore

/-- `SELECT co_count FROM file_cooccurrence WHERE (file_id_1 = q AND file_id_2 = c)
OR (file_id_1 = c AND file_id_2 = q)`, first matching row's count. -/
def edgeLookup (edges : List EdgeRow) (qid cid : Int) : Option (Option Int) :=
  (edges.find? (fun e =>
    (e.fileId1 == qid && e.fileId2 == cid) || (e.fileId1 == cid && e.fileId2 == qid))).map
    (·.coCount)

/-- `RecommendationAgent._get_cooccurrence_score` (lines 178-236): `-1.0`
when either path has no `files` row, when the `file_cooccurrence` table does
not exist, or when no edge row (or a `NULL` count) is found; otherwise the
sigmoid `2 / (1 + exp(-count / 5)) - 1`. -/
noncomputable def cooccurrence_score (db : DB) (queryPath candidatePath : String) : ℝ :=
  match lookupFileId db queryPath, lookupFileId db candidatePath with
  | some qid, some cid =>
    if db.cooccurrenceTableExists then
      match edgeLookup db.fileCooccurrence qid cid with
      | some (some c) => 2 / (1 + Real.exp (-(c : ℝ) / 5)) - 1
      | _ => -1
    else -1
  | _, _ => -1

/-! ### Embedding store -/

/-- `SELECT f.id, f.path, fc.embedding_vector FROM files f JOIN file_content fc
ON f.id = fc.file_id WHERE fc.embedding_vector IS NOT NULL`. -/
def embeddingRows (db : DB) : List (Int × String × List ℝ) :=
  db.files.filterMap (fun f =>
    match db.fileContent.find? (fun c => c.fileId == f.id) with
    | some c => c.embeddingVector.map (fun v => (f.id, f.path, v))
    | none => none)

/-- `RecommendationAgent._load_embeddings` (lines 35-77): enumerate the rows,
keep only vectors of the configured dimension (slot numbers of skipped rows
are left unused), and build the index over the kept rows. -/
def rebuildIndex (dim : Nat) (db : DB) : List (Nat × Int × String × List ℝ) :=
  (embeddingRows db).enum.filter (fun p => p.2.2.2.length == dim)

/-- In-memory state of a `RecommendationAgent`: the configured dimension
`dim`, the injected embedding function `embed` (`self.model.encode`), the
configured ranking weights, the database, and the Annoy index together with
`file_id_map`. -/
structure Agent where
  dim : Nat
  embed : String → List ℝ
  alpha : ℝ
  beta : ℝ
  gamma : ℝ
  db : DB
  index : List (Nat × Int × String × List ℝ)

/-- `INSERT OR REPLACE INTO file_content (file_id, content_preview, embedding_vector)
VALUES (?, ?, ?)`. -/
def upsertContent : List ContentRow → Int → String → List ℝ → List ContentRow
  | [], fid, preview, v => [⟨fid, some preview, some v⟩]
  | c :: cs, fid, preview, v =>
    if c.fileId = fid then ⟨fid, some preview, some v⟩ :: cs
    else c :: upsertContent cs fid preview v

/-- Python's `not text.strip()`: the string becomes empty after stripping
whitespace, i.e. every character is whitespace. -/
def isBlank (s : String) : Bool := s.data.all Char.isWhitespace

/-- `RecommendationAgent.store_embedding` (lines 79-114): reject
whitespace-only text (`not text.strip()`) and vectors whose length differs
from the configured dimension, both without touching the database; otherwise
write the `(file_id, text[:1000], vector)` row, rebuild the index
(`self._load_embeddings()`), and return `True`. -/
def store_embedding (a : Agent) (fileId : Int) (text : String) : Bool × Agent :=
  if isBlank text then (false, a)
  else
    let v := a.embed text
    if v.length ≠ a.dim then (false, a)
    else
      let db' : DB := { a.db with
        fileContent := upsertContent a.db.fileContent fileId (text.take 1000) v }
      (true, { a with db := db', index := rebuildIndex a.dim db' })

/-! ### Ranking -/

/-- Exceptions that can be raised inside `recommend_similar`'s `try` block. -/
inductive PyError where
  | zeroDivision
  | valueError
  deriving Repr, DecidableEq

/-- Python truthiness of an optional string: `None` and `""` are falsy. -/
def pyTruthy : Option String → Option String
  | none => none
  | some t => if t.isEmpty then none else some t

/-- The stored-preview fallback in `recommend_similar` (lines 244-262):
`SELECT fc.content_preview FROM files f JOIN file_content fc ON f.id = fc.file_id
WHERE f.path = ?`. -/
def previewOf (db : DB) (queryPath : String) : Option String :=
  match lookupFileId db queryPath with
  | some fid => (db.fileContent.find? (fun c => c.fileId == fid)).bind (·.contentPreview)
  | none => none

/-- The query text used by `recommend_similar` (lines 241-266): the text
extracted from disk when truthy, else a truthy stored preview, else nothing
(`diskText` models the result of the external `extract_text_snippet`). -/
def queryText (db : DB) (queryPath : String) (diskText : Option String) : Option String :=
  match pyTruthy diskText with
  | some t => some t
  | none => pyTruthy (previewOf db queryPath)

/-- Weight normalization in `recommend_similar` (lines 269-274):
`total = alpha + beta + gamma; map(lambda x: x/total, ...)`.  There is no
guard: a zero total makes the division raise `ZeroDivisionError`. -/
noncomputable def normalizeWeights (alpha beta gamma : ℝ) : Except PyError (ℝ × ℝ × ℝ) :=
  let total := alpha + beta + gamma
  if total = 0 then .error .zeroDivision
  else .ok (alpha / total, beta / total, gamma / total)

/-- `SELECT f.path, fc.embedding_vector FROM files f JOIN file_content fc
ON f.id = fc.file_id WHERE f.path != ?`. -/
def candidateRows (db : DB) (queryPath : String) : List (String × Option (List ℝ)) :=
  db.files.filterMap (fun f =>
    if f.path == queryPath then none
    else (db.fileContent.find? (fun c => c.fileId == f.id)).map
      (fun c => (f.path, c.embeddingVector)))

/-- One entry of `recommend_similar`'s result list (unrounded; the source
additionally rounds the displayed numbers with `round(..., 3)` /
`round(..., 2)` before putting them in the output dictionaries). -/
structure Scored where
  path : String
  finalScore : ℝ
  semantic : ℝ
  recency : ℝ
  cooccurrence : ℝ
  weights : ℝ × ℝ × ℝ

/-- The candidate loop of `recommend_similar` (lines 292-323): skip rows
whose embedding blob is falsy (`NULL` or empty); decode the rest and score
them.  A stored vector whose length differs from the query vector's makes
`query_embedding - stored_embedding` raise a numpy shape error (broadcasting
of length-1 arrays is not modelled). -/
noncomputable def scoreRows (db : DB) (now : Int) (queryPath : String) (qvec : List ℝ)
    (w : ℝ × ℝ × ℝ) : List (String × Option (List ℝ)) → Except PyError (List Scored)
  | [] => .ok []
  | (_, none) :: rest => scoreRows db now queryPath qvec w rest
  | (path, some v) :: rest =>
    if v = [] then scoreRows db now queryPath qvec w rest
    else if v.length ≠ qvec.length then .error .valueError
    else
      let sim := similarity qvec v
      let rcy := recency_score db now path
      let co := cooccurrence_score db queryPath path
      let final := w.1 * sim + w.2.1 * rcy + w.2.2 * co
      (scoreRows db now queryPath qvec w rest).map
        (fun tail => ⟨path, final, sim, rcy, co, w⟩ :: tail)

/-- Python list slicing `results[:limit]` for a possibly negative `limit`. -/
def pyTake {α : Type} (l : List α) (limit : Int) : List α :=
  if 0 ≤ limit then l.take limit.toNat
  else l.take (l.length - (-limit).toNat)

/-- The scored candidate list of `recommend_similar`, sorted by
`final_score` descending (`results.sort(key=..., reverse=True)`, a stable
sort), before the `[:limit]` truncation. -/
noncomputable def rankedResults (a : Agent) (now : Int) (queryPath : String)
    (diskText : Option String) : Except PyError (List Scored) :=
  match queryText a.db queryPath diskText with
  | none => .ok []
  | some qt => do
    let w ← normalizeWeights a.alpha a.beta a.gamma
    let qvec := a.embed qt
    let scored ← scoreRows a.db now queryPath qvec w (candidateRows a.db queryPath)
    return scored.mergeSort (fun x y => decide (y.finalScore ≤ x.finalScore))

/-- The body of `recommend_similar`'s `try` block, up to and including
`results[:limit]`.  When no query text is obtainable the source returns `[]`
directly (line 266). -/
noncomputable def recommendBody (a : Agent) (now : Int) (queryPath : String)
    (diskText : Option String) (limit : Int) : Except PyError (List Scored) :=
  (rankedResults a now queryPath diskText).map (fun l => pyTake l limit)

/-- The `except Exception: return []` handler wrapping the whole body
(lines 330-332). -/
def orEmpty : Except PyError (List Scored) → List Scored
  | .ok l => l
  | .error _ => []

/-- `RecommendationAgent.recommend_similar` (lines 238-332). -/
noncomputable def recommend_similar (a : Agent) (now : Int) (queryPath : String)
    (diskText : Option String) (limit : Int) : List Scored :=
  orEmpty (recommendBody a now queryPath diskText limit)

/-! ## Helper lemmas -/

theorem bumpEdge_ids (es : List EdgeRow) (lo hi : Int) :
    ∀ e ∈ bumpEdge es lo hi,
      (e.fileId1 = lo ∧ e.fileId2 = hi) ∨ ∃ e' ∈ es, e.fileId1 = e'.fileId1 ∧ e.fileId2 = e'.fileId2 := by
  induction es with
  | nil =>
    intro e he
    simp only [bumpEdge, List.mem_singleton] at he
    subst he
    exact Or.inl ⟨rfl, rfl⟩
  | cons c cs ih =>
    intro e he
    simp only [bumpEdge] at he
    split at he
    · rcases List.mem_cons.mp he with h | h
      · subst h
        exact Or.inr ⟨c, List.mem_cons_self c cs, rfl, rfl⟩
      · exact Or.inr ⟨e, List.mem_cons_of_mem c h, rfl, rfl⟩
    · rcases List.mem_cons.mp he with h | h
      · subst h
        exact Or.inr ⟨e, List.mem_cons_self e cs, rfl, rfl⟩
      · rcases ih e h with h' | ⟨e', he', h1, h2⟩
        · exact Or.inl h'
        · exact Or.inr ⟨e', List.mem_cons_of_mem c he', h1, h2⟩

theorem record_cooccurrence_fileActivity (db : DB) (x y : Int) :
    (record_cooccurrence db x y).fileActivity = db.fileActivity := by
  unfold record_cooccurrence
  split <;> [rfl; split <;> rfl]

theorem record_cooccurrence_files (db : DB) (x y : Int) :
    (record_cooccurrence db x y).files = db.files := by
  unfold record_cooccurrence
  split <;> [rfl; split <;> rfl]

theorem foldl_cooccurrence_fileActivity (fid : Int) (l : List ActivityRow) :
    ∀ db : DB,
      (l.foldl (fun d a => record_cooccurrence d fid a.fileId) db).fileActivity =
        db.fileActivity := by
  induction l with
  | nil => intro db; rfl
  | cons a as ih =>
    intro db
    simpa [List.foldl_cons, record_cooccurrence_fileActivity] using
      (ih (record_cooccurrence db fid a.fileId)).trans
        (record_cooccurrence_fileActivity db fid a.fileId)

/-! ## Claims -/

/-- C3: `bump_cooccurrence(a,b)` and `bump_cooccurrence(b,a)` mutate the same
stored edge, keyed under canonical order `(min(a,b), max(a,b))`; a self pair
is a no-op; and every stored edge row keeps satisfying
`file_id_1 < file_id_2`. -/
theorem claim_C3 (db : DB) (a b : Int)
    (hinv : ∀ e ∈ db.fileCooccurrence, e.fileId1 < e.fileId2) :
    record_cooccurrence db a b = record_cooccurrence db b a ∧
    record_cooccurrence db a a = db ∧
    ∀ e ∈ (record_cooccurrence db a b).fileCooccurrence, e.fileId1 < e.fileId2 := by
  refine ⟨?_, ?_, ?_⟩
  · by_cases hab : a = b
    · rw [hab]
    · have hba : ¬b = a := fun h => hab h.symm
      unfold record_cooccurrence
      rw [if_neg hab, if_neg hba, min_comm, max_comm]
  · simp [record_cooccurrence]
  · intro e he
    unfold record_cooccurrence at he
    by_cases hab : a = b
    · rw [if_pos hab] at he
      exact hinv e he
    · rw [if_neg hab] at he
      by_cases ht : db.cooccurrenceTableExists
      · rw [if_pos ht] at he
        rcases bumpEdge_ids db.fileCooccurrence (min a b) (max a b) e he with ⟨h1, h2⟩ | ⟨e', he', h1, h2⟩
        · rw [h1, h2]
          exact min_lt_max.mpr hab
        · rw [h1, h2]
          exact hinv e' he'
      · rw [if_neg ht] at he
        exact hinv e he

/-- Witness for C3 at a concrete database and pair. -/
theorem claim_C3_witness :
    record_cooccurrence ⟨[], [], [], true, [⟨1, 2, some 1⟩]⟩ 5 3 =
      record_cooccurrence ⟨[], [], [], true, [⟨1, 2, some 1⟩]⟩ 3 5 ∧
    record_cooccurrence ⟨[], [], [], true, [⟨1, 2, some 1⟩]⟩ 5 5 =
      ⟨[], [], [], true, [⟨1, 2, some 1⟩]⟩ ∧
    ∀ e ∈ (record_cooccurrence ⟨[], [], [], true, [⟨1, 2, some 1⟩]⟩ 5 3).fileCooccurrence,
      e.fileId1 < e.fileId2 := by
  have h := claim_C3 ⟨[], [], [], true, [⟨1, 2, some 1⟩]⟩ 5 3 (by decide)
  exact ⟨h.1, (claim_C3 ⟨[], [], [], true, [⟨1, 2, some 1⟩]⟩ 5 5 (by decide)).2.1, h.2.2⟩

/-- C7: `record_access` on a path with no `files` row returns `false` and
leaves the state unchanged; it returns `true` exactly when the file is
known, in which case the activity upsert was applied. -/
theorem claim_C7 (db : DB) (now : Int) (path : String) :
    ((record_access db now path).1 = true ↔ (lookupFileId db path).isSome) ∧
    (lookupFileId db path = none → record_access db now path = (false, db)) ∧
    (∀ fid, lookupFileId db path = some fid →
      (record_access db now path).2.fileActivity = upsertActivity db.fileActivity fid now) := by
  refine ⟨?_, ?_, ?_⟩
  · cases h : lookupFileId db path with
    | none => simp [record_access, h]
    | some fid => simp [record_access, h]
  · intro h
    simp [record_access, h]
  · intro fid h
    simp only [record_access, h]
    exact foldl_cooccurrence_fileActivity fid _ _

/-- Witness for C7: unknown path rejected, known path recorded. -/
theorem claim_C7_witness :
    record_access ⟨[⟨1, "a", none⟩], [], [], true, []⟩ 50 "zzz" =
      (false, ⟨[⟨1, "a", none⟩], [], [], true, []⟩) ∧
    (record_access ⟨[⟨1, "a", none⟩], [], [], true, []⟩ 50 "a").1 = true := by
  refine ⟨(claim_C7 ⟨[⟨1, "a", none⟩], [], [], true, []⟩ 50 "zzz").2.1 rfl, ?_⟩
  exact (claim_C7 ⟨[⟨1, "a", none⟩], [], [], true, []⟩ 50 "a").1.mpr (by rfl)

/-- C2: the co-occurrence factor is exactly `-1.0` when either file is
unknown, when the `file_cooccurrence` table is missing, or when no edge row
matches the pair; an edge row with count `c` scores
`2 / (1 + exp(-c / 5)) - 1`, so a stored count of `0` scores exactly `0.0`,
distinguishable from the `-1.0` sentinel. -/
theorem claim_C2 (db : DB) (qp cp : String) :
    ((lookupFileId db qp = none ∨ lookupFileId db cp = none) →
      cooccurrence_score db qp cp = -1) ∧
    (db.cooccurrenceTableExists = false → cooccurrence_score db qp cp = -1) ∧
    (∀ qid cid, lookupFileId db qp = some qid → lookupFileId db cp = some cid →
      db.cooccurrenceTableExists = true →
      (edgeLookup db.fileCooccurrence qid cid = none → cooccurrence_score db qp cp = -1) ∧
      (∀ c : Int, edgeLookup db.fileCooccurrence qid cid = some (some c) →
        cooccurrence_score db qp cp = 2 / (1 + Real.exp (-(c : ℝ) / 5)) - 1) ∧
      (edgeLookup db.fileCooccurrence qid cid = some (some 0) →
        cooccurrence_score db qp cp = 0)) := by
  refine ⟨?_, ?_, ?_⟩
  · intro h
    unfold cooccurrence_score
    rcases h with h | h <;> rw [h] <;> cases lookupFileId db qp <;> cases lookupFileId db cp <;>
      simp_all
  · intro h
    unfold cooccurrence_score
    cases lookupFileId db qp <;> cases lookupFileId db cp <;> simp [h]
  · intro qid cid hq hc ht
    have hform : ∀ c : Int, edgeLookup db.fileCooccurrence qid cid = some (some c) →
        cooccurrence_score db qp cp = 2 / (1 + Real.exp (-(c : ℝ) / 5)) - 1 := by
      intro c he
      unfold cooccurrence_score
      rw [hq, hc]
      simp [ht, he]
    refine ⟨?_, hform, ?_⟩
    · intro he
      unfold cooccurrence_score
      rw [hq, hc]
      simp [ht, he]
    · intro he
      rw [hform 0 he]
      norm_num [Real.exp_zero]

/-- Witness for C2: a measured zero-count edge scores `0.0`; an unknown
candidate path scores the sentinel `-1.0`. -/
theorem claim_C2_witness :
    cooccurrence_score ⟨[⟨1, "a", none⟩, ⟨2, "b", none⟩], [], [], true, [⟨1, 2, some 0⟩]⟩ "a" "b" = 0 ∧
    cooccurrence_score ⟨[⟨1, "a", none⟩, ⟨2, "b", none⟩], [], [], true, [⟨1, 2, some 0⟩]⟩ "a" "zzz" = -1 := by
  refine ⟨?_, ?_⟩
  · exact ((claim_C2 ⟨[⟨1, "a", none⟩, ⟨2, "b", none⟩], [], [], true, [⟨1, 2, some 0⟩]⟩ "a" "b").2.2
      1 2 rfl rfl rfl).2.2 rfl
  · exact (claim_C2 ⟨[⟨1, "a", none⟩, ⟨2, "b", none⟩], [], [], true, [⟨1, 2, some 0⟩]⟩ "a" "zzz").1
      (Or.inr rfl)

/-- Both clamped decay terms lie in `[0, 1]`. -/
theorem clamp01_mem (x : ℝ) : 0 ≤ max 0 (min 1 x) ∧ max 0 (min 1 x) ≤ 1 :=
  ⟨le_max_left 0 (min 1 x), max_le zero_le_one (min_le_left 1 x)⟩

/-- C5: the recency factor is
`0.4 * clamp(exp(-days_since_modified/30), 0, 1) +
 0.6 * clamp(exp(-days_since_accessed/15), 0, 1)`, with the modification
term `0` when the timestamp is unparseable and the access term `0` when the
file has no access history; the factor always lies in `[0, 1]`. -/
theorem claim_C5 (db : DB) (now : Int) (path : String) :
    (0 ≤ recency_score db now path ∧ recency_score db now path ≤ 1) ∧
    (∀ f, db.files.find? (fun g => g.path == path) = some f →
      recency_score db now path =
        0.4 * (match f.lastModified with
          | none => (0 : ℝ)
          | some tm => max 0 (min 1 (Real.exp (-(daysBetween tm now : ℝ) / 30)))) +
        0.6 * (match lookupActivity db.fileActivity f.id with
          | none => (0 : ℝ)
          | some a => max 0 (min 1 (Real.exp (-(daysBetween a.lastAccessed now : ℝ) / 15))))) := by
  constructor
  · unfold recency_score
    cases hf : db.files.find? (fun g => g.path == path) with
    | none => norm_num
    | some f =>
      have hm : 0 ≤ (match f.lastModified with
          | none => (0 : ℝ)
          | some tm => max 0 (min 1 (Real.exp (-(daysBetween tm now : ℝ) / 30)))) ∧
          (match f.lastModified with
          | none => (0 : ℝ)
          | some tm => max 0 (min 1 (Real.exp (-(daysBetween tm now : ℝ) / 30)))) ≤ 1 := by
        cases f.lastModified with
        | none => norm_num
        | some tm => exact clamp01_mem _
      have ha : 0 ≤ (match lookupActivity db.fileActivity f.id with
          | none => (0 : ℝ)
          | some a => max 0 (min 1 (Real.exp (-(daysBetween a.lastAccessed now : ℝ) / 15)))) ∧
          (match lookupActivity db.fileActivity f.id with
          | none => (0 : ℝ)
          | some a => max 0 (min 1 (Real.exp (-(daysBetween a.lastAccessed now : ℝ) / 15)))) ≤ 1 := by
        cases lookupActivity db.fileActivity f.id with
        | none => norm_num
        | some a => exact clamp01_mem _
      constructor <;> [nlinarith [hm.1, ha.1]; nlinarith [hm.2, ha.2, hm.1, ha.1]]
  · intro f hf
    unfold recency_score
    rw [hf]

/-- Witness for C5 at a concrete database: a file modified at the query
instant with no access history scores `0.4 * 1 + 0.6 * 0`. -/
theorem claim_C5_witness :
    0 ≤ recency_score ⟨[⟨1, "a", some 0⟩], [], [], true, []⟩ 0 "a" ∧
    recency_score ⟨[⟨1, "a", some 0⟩], [], [], true, []⟩ 0 "a" ≤ 1 ∧
    recency_score ⟨[⟨1, "a", some 0⟩], [], [], true, []⟩ 0 "a" = 2 / 5 := by
  obtain ⟨⟨h0, h1⟩, heq⟩ := claim_C5 ⟨[⟨1, "a", some 0⟩], [], [], true, []⟩ 0 "a"
  refine ⟨h0, h1, ?_⟩
  rw [heq ⟨1, "a", some 0⟩ rfl]
  norm_num [daysBetween, lookupActivity, Real.exp_zero]

/-- `SELECT * FROM file_content WHERE file_id = ?`, first matching row. -/
def lookupContent (rows : List ContentRow) (fid : Int) : Option ContentRow :=
  rows.find? (fun c => c.fileId == fid)

theorem lookupContent_upsertContent (rows : List ContentRow) (fid : Int) (p : String)
    (v : List ℝ) : lookupContent (upsertContent rows fid p v) fid = some ⟨fid, some p, some v⟩ := by
  induction rows with
  | nil => simp [upsertContent, lookupContent]
  | cons c cs ih =>
    by_cases h : c.fileId = fid
    · simp [upsertContent, lookupContent, h]
    · simpa [upsertContent, lookupContent, List.find?, h] using ih

/-- C6: `store_embedding` rejects whitespace-only text and wrong-dimension
vectors, leaving the state unchanged; on success it persists the
`(file_id, preview, vector)` row and rebuilds the index before returning
`true`. -/
theorem claim_C6 (a : Agent) (fileId : Int) (text : String) :
    (isBlank text = true → store_embedding a fileId text = (false, a)) ∧
    ((a.embed text).length ≠ a.dim → store_embedding a fileId text = (false, a)) ∧
    (isBlank text = false → (a.embed text).length = a.dim →
      (store_embedding a fileId text).1 = true ∧
      lookupContent (store_embedding a fileId text).2.db.fileContent fileId =
        some ⟨fileId, some (text.take 1000), some (a.embed text)⟩ ∧
      (store_embedding a fileId text).2.index =
        rebuildIndex a.dim (store_embedding a fileId text).2.db) := by
  refine ⟨?_, ?_, ?_⟩
  · intro h
    simp [store_embedding, h]
  · intro h
    unfold store_embedding
    by_cases ht : isBlank text
    · simp [ht]
    · simp [ht, h]
  · intro ht hd
    have hs : store_embedding a fileId text =
        (true, { a with
          db := { a.db with fileContent := (upsertContent a.db.fileContent fileId
            (text.take 1000) (a.embed text)) },
          index := rebuildIndex a.dim { a.db with fileContent := (upsertContent
            a.db.fileContent fileId (text.take 1000) (a.embed text)) } }) := by
      unfold store_embedding
      rw [ht]
      simp only [Bool.false_eq_true, if_false]
      rw [if_neg (not_not_intro hd)]
    rw [hs]
    exact ⟨rfl, lookupContent_upsertContent _ _ _ _, rfl⟩

/-- Witness for C6: empty text rejected without a state change; valid text
accepted. -/
theorem claim_C6_witness :
    store_embedding ⟨2, fun _ => [0, 0], 1, 0, 0, ⟨[], [], [], true, []⟩, []⟩ 7 "" =
      (false, ⟨2, fun _ => [0, 0], 1, 0, 0, ⟨[], [], [], true, []⟩, []⟩) ∧
    (store_embedding ⟨2, fun _ => [0, 0], 1, 0, 0, ⟨[], [], [], true, []⟩, []⟩ 7 "hi").1 = true := by
  refine ⟨(claim_C6 ⟨2, fun _ => [0, 0], 1, 0, 0, ⟨[], [], [], true, []⟩, []⟩ 7 "").1 (by decide), ?_⟩
  exact ((claim_C6 ⟨2, fun _ => [0, 0], 1, 0, 0, ⟨[], [], [], true, []⟩, []⟩ 7 "hi").2.2 (by decide)
    rfl).1

theorem scoreRows_mem (db : DB) (now : Int) (qp : String) (qvec : List ℝ) (w : ℝ × ℝ × ℝ) :
    ∀ rows out, scoreRows db now qp qvec w rows = .ok out →
      ∀ e ∈ out, ∃ v : List ℝ, (e.path, some v) ∈ rows ∧ v.length = qvec.length ∧
        e.semantic = similarity qvec v := by
  intro rows
  induction rows with
  | nil =>
    intro out h e he
    rw [scoreRows] at h
    cases h
    simp at he
  | cons r rest ih =>
    obtain ⟨p, ov⟩ := r
    cases ov with
    | none =>
      intro out h e he
      rw [scoreRows] at h
      obtain ⟨v, hv, hl, hs⟩ := ih out h e he
      exact ⟨v, List.mem_cons_of_mem _ hv, hl, hs⟩
    | some v =>
      intro out h e he
      rw [scoreRows] at h
      by_cases hv0 : v = []
      · rw [if_pos hv0] at h
        obtain ⟨v', hv', hl, hs⟩ := ih out h e he
        exact ⟨v', List.mem_cons_of_mem _ hv', hl, hs⟩
      · rw [if_neg hv0] at h
        by_cases hlen : v.length ≠ qvec.length
        · rw [if_pos hlen] at h
          cases h
        · rw [if_neg hlen] at h
          cases hrest : scoreRows db now qp qvec w rest with
          | error err =>
            rw [hrest] at h
            cases h
          | ok tail =>
            rw [hrest] at h
            simp only [Except.map] at h
            cases h
            rcases List.mem_cons.mp he with he1 | he2
            · subst he1
              exact ⟨v, List.mem_cons_self _ _, not_not.mp hlen, rfl⟩
            · obtain ⟨v', hv', hl, hs⟩ := ih tail hrest e he2
              exact ⟨v', List.mem_cons_of_mem _ hv', hl, hs⟩

/-- C1: every entry of `recommend_similar`'s output carries a semantic
factor that is exactly `1 − L2_norm(query_vector − candidate_vector)` for
the candidate's stored vector; the value is not clamped to `[0, 1]` and can
be negative for dissimilar vectors. -/
theorem claim_C1 (a : Agent) (now : Int) (queryPath : String) (diskText : Option String)
    (limit : Int) (e : Scored) (he : e ∈ recommend_similar a now queryPath diskText limit) :
    (∃ qt v, queryText a.db queryPath diskText = some qt ∧
      (e.path, some v) ∈ candidateRows a.db queryPath ∧
      v.length = (a.embed qt).length ∧
      e.semantic = similarity (a.embed qt) v ∧
      similarity (a.embed qt) v = 1 - l2norm (vsub (a.embed qt) v)) ∧
    (∃ q c : List ℝ, q.length = c.length ∧ similarity q c < 0) := by
  constructor
  · cases hqt : queryText a.db queryPath diskText with
    | none =>
      have hrr : rankedResults a now queryPath diskText = Except.ok [] := by
        simp only [rankedResults, hqt]
      rw [recommend_similar, recommendBody, hrr] at he
      simp [orEmpty, Except.map, pyTake] at he
    | some qt =>
      cases hw : normalizeWeights a.alpha a.beta a.gamma with
      | error err =>
        have hrr : rankedResults a now queryPath diskText = Except.error err := by
          simp only [rankedResults, hqt, hw]
          rfl
        rw [recommend_similar, recommendBody, hrr] at he
        simp [orEmpty, Except.map] at he
      | ok w =>
        cases hs : scoreRows a.db now queryPath (a.embed qt) w (candidateRows a.db queryPath) with
        | error err =>
          have hrr : rankedResults a now queryPath diskText = Except.error err := by
            simp only [rankedResults, hqt, hw]
            simp only [bind, Except.bind, hs]
          rw [recommend_similar, recommendBody, hrr] at he
          simp [orEmpty, Except.map] at he
        | ok scored =>
          have hrr : rankedResults a now queryPath diskText =
              Except.ok (scored.mergeSort (fun x y => decide (y.finalScore ≤ x.finalScore))) := by
            simp only [rankedResults, hqt, hw]
            simp only [bind, Except.bind, hs]
            rfl
          rw [recommend_similar, recommendBody, hrr] at he
          simp only [Except.map, orEmpty] at he
          have hm : e ∈ scored.mergeSort (fun x y => decide (y.finalScore ≤ x.finalScore)) := by
            unfold pyTake at he
            split at he
            · exact List.take_subset _ _ he
            · exact List.take_subset _ _ he
          obtain ⟨v, hv, hl, hsem⟩ :=
            scoreRows_mem a.db now queryPath (a.embed qt) w _ scored hs e
              (List.mem_mergeSort.mp hm)
          exact ⟨qt, v, rfl, hv, hl, hsem, rfl⟩
  · refine ⟨[0], [3], rfl, ?_⟩
    have h9 : Real.sqrt 9 = 3 := by
      rw [show (9 : ℝ) = 3 ^ 2 by norm_num]
      exact Real.sqrt_sq (by norm_num)
    simp only [similarity, l2norm, vsub, sumSq, List.zipWith_cons_cons, List.zipWith_nil_right,
      List.map_cons, List.map_nil, List.sum_cons, List.sum_nil]
    norm_num [h9]

/-! ## Evaluation helpers for concrete states -/

theorem recommend_eq_pyTake (a : Agent) (now : Int) (qp : String) (dt : Option String)
    (limit : Int) :
    recommend_similar a now qp dt limit = pyTake (orEmpty (rankedResults a now qp dt)) limit := by
  rw [recommend_similar, recommendBody]
  cases h : rankedResults a now qp dt with
  | ok l => rfl
  | error err =>
    show orEmpty (Except.error err) = pyTake (orEmpty (Except.error err)) limit
    simp [orEmpty, pyTake]

theorem rankedResults_ok (a : Agent) (now : Int) (qp : String) (dt : Option String)
    (qt : String) (w : ℝ × ℝ × ℝ) (scored : List Scored)
    (hqt : queryText a.db qp dt = some qt)
    (hw : normalizeWeights a.alpha a.beta a.gamma = .ok w)
    (hs : scoreRows a.db now qp (a.embed qt) w (candidateRows a.db qp) = .ok scored) :
    rankedResults a now qp dt =
      .ok (scored.mergeSort (fun x y => decide (y.finalScore ≤ x.finalScore))) := by
  simp only [rankedResults, hqt, hw]
  simp only [bind, Except.bind, hs]
  rfl

theorem pyTake_length {α : Type} (l : List α) (k : Int) :
    (pyTake l k).length = if 0 ≤ k then min k.toNat l.length else l.length - (-k).toNat := by
  unfold pyTake
  split
  · simp [List.length_take]
  · simp [List.length_take]

theorem recommend_length (a : Agent) (now : Int) (qp : String) (dt : Option String)
    (limit : Int) (qt : String) (w : ℝ × ℝ × ℝ) (scored : List Scored)
    (hqt : queryText a.db qp dt = some qt)
    (hw : normalizeWeights a.alpha a.beta a.gamma = .ok w)
    (hs : scoreRows a.db now qp (a.embed qt) w (candidateRows a.db qp) = .ok scored) :
    (recommend_similar a now qp dt limit).length =
      if 0 ≤ limit then min limit.toNat scored.length else scored.length - (-limit).toNat := by
  rw [recommend_similar, recommendBody, rankedResults_ok a now qp dt qt w scored hqt hw hs]
  show (pyTake (scored.mergeSort _) limit).length = _
  rw [pyTake_length, List.length_mergeSort]

theorem scoreRows_nil (db : DB) (now : Int) (qp : String) (qvec : List ℝ) (w : ℝ × ℝ × ℝ) :
    scoreRows db now qp qvec w [] = .ok [] := rfl

theorem scoreRows_cons_valid (db : DB) (now : Int) (qp : String) (qvec : List ℝ)
    (w : ℝ × ℝ × ℝ) (p : String) (v : List ℝ) (rest : List (String × Option (List ℝ)))
    (hv : v ≠ []) (hl : v.length = qvec.length) :
    scoreRows db now qp qvec w ((p, some v) :: rest) =
      (scoreRows db now qp qvec w rest).map (fun tail =>
        ⟨p, w.1 * similarity qvec v + w.2.1 * recency_score db now p +
          w.2.2 * cooccurrence_score db qp p, similarity qvec v, recency_score db now p,
          cooccurrence_score db qp p, w⟩ :: tail) := by
  rw [scoreRows, if_neg hv, if_neg (not_not_intro hl)]

/-! ## Concrete fixtures for witnesses and counterexamples -/

/-- A database with query file `"q"` and one embedded candidate `"a"`. -/
noncomputable def dbOne : DB :=
  ⟨[⟨1, "q", none⟩, ⟨2, "a", none⟩], [⟨2, none, some [1]⟩], [], false, []⟩

/-- A database with query file `"q"` and two embedded candidates. -/
noncomputable def dbTwo : DB :=
  ⟨[⟨1, "q", none⟩, ⟨2, "a", none⟩, ⟨3, "b", none⟩],
    [⟨2, none, some [1]⟩, ⟨3, none, some [1]⟩], [], false, []⟩

/-- Agent over `dbOne` with weights `(1, 0, 0)`. -/
noncomputable def agOne : Agent := ⟨1, fun _ => [0], 1, 0, 0, dbOne, []⟩

/-- Agent over `dbOne` with all-zero ranking weights. -/
noncomputable def agZeroW : Agent := ⟨1, fun _ => [0], 0, 0, 0, dbOne, []⟩

/-- Agent over `dbTwo` with weights `(1, 0, 0)`. -/
noncomputable def agTwo : Agent := ⟨1, fun _ => [0], 1, 0, 0, dbTwo, []⟩

/-- Agent over an empty database. -/
noncomputable def agEmpty : Agent := ⟨1, fun _ => [0], 1, 0, 0, ⟨[], [], [], false, []⟩, []⟩

theorem agOne_weights : normalizeWeights agOne.alpha agOne.beta agOne.gamma = .ok (1, 0, 0) := by
  show normalizeWeights 1 0 0 = _
  unfold normalizeWeights
  rw [if_neg (by norm_num : ¬(1 : ℝ) + 0 + 0 = 0)]
  norm_num

theorem agOne_scoreRows :
    ∃ l, scoreRows agOne.db 0 "q" (agOne.embed "x") (1, 0, 0) (candidateRows agOne.db "q") =
      .ok l ∧ l.length = 1 := by
  have hcand : candidateRows agOne.db "q" = [("a", some [1])] := rfl
  rw [hcand, scoreRows_cons_valid agOne.db 0 "q" (agOne.embed "x") (1, 0, 0) "a" [1] []
    (by simp) (by rfl), scoreRows_nil]
  exact ⟨_, rfl, rfl⟩

theorem agOne_recommend_length : (recommend_similar agOne 0 "q" (some "x") 5).length = 1 := by
  obtain ⟨l, hs, hlen⟩ := agOne_scoreRows
  rw [recommend_length agOne 0 "q" (some "x") 5 "x" (1, 0, 0) l rfl agOne_weights hs, hlen]
  decide

theorem agOne_recommend_ne_nil : recommend_similar agOne 0 "q" (some "x") 5 ≠ [] := by
  intro h
  have := agOne_recommend_length
  rw [h] at this
  simp at this

/-- Witness for C1: the head of a concrete non-empty recommendation list
carries the unclamped `1 − L2_norm` semantic factor of its stored vector. -/
theorem claim_C1_witness :
    (∃ qt v, queryText agOne.db "q" (some "x") = some qt ∧
      (((recommend_similar agOne 0 "q" (some "x") 5).head agOne_recommend_ne_nil).path, some v) ∈
        candidateRows agOne.db "q" ∧
      v.length = (agOne.embed qt).length ∧
      ((recommend_similar agOne 0 "q" (some "x") 5).head agOne_recommend_ne_nil).semantic =
        similarity (agOne.embed qt) v ∧
      similarity (agOne.embed qt) v = 1 - l2norm (vsub (agOne.embed qt) v)) ∧
    (∃ q c : List ℝ, q.length = c.length ∧ similarity q c < 0) :=
  claim_C1 agOne 0 "q" (some "x") 5 _
    (List.head_mem agOne_recommend_ne_nil)

theorem agZeroW_body_error :
    recommendBody agZeroW 0 "q" (some "x") 5 = .error .zeroDivision := by
  have hw : normalizeWeights agZeroW.alpha agZeroW.beta agZeroW.gamma = .error .zeroDivision := by
    show normalizeWeights 0 0 0 = _
    unfold normalizeWeights
    rw [if_pos (by norm_num : (0 : ℝ) + 0 + 0 = 0)]
  have hrr : rankedResults agZeroW 0 "q" (some "x") = .error .zeroDivision := by
    simp only [rankedResults, show queryText agZeroW.db "q" (some "x") = some "x" from rfl, hw]
    rfl
  rw [recommendBody, hrr]
  rfl

/-- Counterexample for C8: with all-zero configured weights and one stored
candidate, `recommend` returns the empty list — not the candidate list with
zero scores that the claim promises. -/
theorem claim_C8_counterexample :
    recommend_similar agZeroW 0 "q" (some "x") 5 = [] ∧
    candidateRows agZeroW.db "q" = [("a", some [1])] := by
  refine ⟨?_, rfl⟩
  rw [recommend_similar, agZeroW_body_error]
  rfl

/-- C8 (amended): `recommend` normalizes the weights by dividing by their
sum; a zero sum makes the division raise `ZeroDivisionError`, which the
top-level handler turns into an empty result list (the call does not fail,
but no zero-scored candidates are returned). -/
theorem claim_C8_amended (a : Agent) (now : Int) (qp : String) (dt : Option String)
    (limit : Int) :
    (a.alpha + a.beta + a.gamma = 0 → recommend_similar a now qp dt limit = []) ∧
    (a.alpha + a.beta + a.gamma ≠ 0 →
      normalizeWeights a.alpha a.beta a.gamma =
        .ok (a.alpha / (a.alpha + a.beta + a.gamma), a.beta / (a.alpha + a.beta + a.gamma),
          a.gamma / (a.alpha + a.beta + a.gamma))) := by
  constructor
  · intro h0
    cases hqt : queryText a.db qp dt with
    | none =>
      have hrr : rankedResults a now qp dt = Except.ok [] := by
        simp only [rankedResults, hqt]
      rw [recommend_similar, recommendBody, hrr]
      simp [orEmpty, pyTake, Except.map]
    | some qt =>
      have hw : normalizeWeights a.alpha a.beta a.gamma = .error .zeroDivision := by
        unfold normalizeWeights
        rw [if_pos h0]
      have hrr : rankedResults a now qp dt = Except.error .zeroDivision := by
        simp only [rankedResults, hqt, hw]
        rfl
      rw [recommend_similar, recommendBody, hrr]
      rfl
  · intro h0
    unfold normalizeWeights
    rw [if_neg h0]

/-- Witness for C8 (amended): zero-sum weights yield an empty result;
weights `(1, 0, 0)` normalize by their sum. -/
theorem claim_C8_witness :
    recommend_similar agZeroW 3 "q" (some "x") 5 = [] ∧
    normalizeWeights agOne.alpha agOne.beta agOne.gamma =
      .ok (agOne.alpha / (agOne.alpha + agOne.beta + agOne.gamma),
        agOne.beta / (agOne.alpha + agOne.beta + agOne.gamma),
        agOne.gamma / (agOne.alpha + agOne.beta + agOne.gamma)) :=
  ⟨(claim_C8_amended agZeroW 3 "q" (some "x") 5).1 (by norm_num [agZeroW]),
    (claim_C8_amended agOne 3 "q" (some "x") 5).2 (by norm_num [agOne])⟩

theorem agTwo_scoreRows :
    ∃ l, scoreRows agTwo.db 0 "q" (agTwo.embed "x") (1, 0, 0) (candidateRows agTwo.db "q") =
      .ok l ∧ l.length = 2 := by
  have hcand : candidateRows agTwo.db "q" = [("a", some [1]), ("b", some [1])] := rfl
  rw [hcand, scoreRows_cons_valid agTwo.db 0 "q" (agTwo.embed "x") (1, 0, 0) "a" [1] _
    (by simp) (by rfl), scoreRows_cons_valid agTwo.db 0 "q" (agTwo.embed "x") (1, 0, 0) "b" [1] []
    (by simp) (by rfl), scoreRows_nil]
  exact ⟨_, rfl, rfl⟩

theorem agTwo_weights : normalizeWeights agTwo.alpha agTwo.beta agTwo.gamma = .ok (1, 0, 0) := by
  show normalizeWeights 1 0 0 = _
  unfold normalizeWeights
  rw [if_neg (by norm_num : ¬(1 : ℝ) + 0 + 0 = 0)]
  norm_num

/-- Counterexample for C9: with two stored candidates and `limit = -1`
(a value `≤ 0`), `recommend` returns one result, not the empty list the
claim promises: Python's `results[:limit]` drops only the last element. -/
theorem claim_C9_counterexample :
    (recommend_similar agTwo 0 "q" (some "x") (-1)).length = 1 := by
  obtain ⟨l, hs, hlen⟩ := agTwo_scoreRows
  rw [recommend_length agTwo 0 "q" (some "x") (-1) "x" (1, 0, 0) l rfl agTwo_weights hs, hlen]
  decide

/-- C9 (amended): for `limit = 0`, `recommend` returns an empty list without
error; for negative `limit`, Python slice semantics return all but the last
`|limit|` ranked candidates — an empty list only when `|limit|` is at least
the number of candidates. -/
theorem claim_C9_amended (a : Agent) (now : Int) (qp : String) (dt : Option String) :
    recommend_similar a now qp dt 0 = [] ∧
    (∀ limit : Int, limit < 0 →
      recommend_similar a now qp dt limit =
        (orEmpty (rankedResults a now qp dt)).take
          ((orEmpty (rankedResults a now qp dt)).length - (-limit).toNat)) := by
  constructor
  · rw [recommend_eq_pyTake]
    simp [pyTake]
  · intro limit hl
    rw [recommend_eq_pyTake]
    unfold pyTake
    rw [if_neg (by omega)]

/-- Witness for C9 (amended) at a concrete agent and `limit = -1`. -/
theorem claim_C9_witness :
    recommend_similar agTwo 0 "q" (some "x") 0 = [] ∧
    recommend_similar agTwo 0 "q" (some "x") (-1) =
      (orEmpty (rankedResults agTwo 0 "q" (some "x"))).take
        ((orEmpty (rankedResults agTwo 0 "q" (some "x"))).length - (-(-1 : Int)).toNat) :=
  ⟨(claim_C9_amended agTwo 0 "q" (some "x")).1,
    (claim_C9_amended agTwo 0 "q" (some "x")).2 (-1) (by decide)⟩

/-- C10: `recommend` never propagates an exception: an internal failure
(modelled by the `Except` error of the body) produces an empty list, and
when no query text is obtainable from disk or the stored preview the result
is likewise empty. -/
theorem claim_C10 (a : Agent) (now : Int) (qp : String) (dt : Option String) (limit : Int) :
    (queryText a.db qp dt = none → recommend_similar a now qp dt limit = []) ∧
    (∀ err, recommendBody a now qp dt limit = .error err →
      recommend_similar a now qp dt limit = []) := by
  constructor
  · intro h
    have hrr : rankedResults a now qp dt = Except.ok [] := by
      simp only [rankedResults, h]
    rw [recommend_similar, recommendBody, hrr]
    simp [orEmpty, pyTake, Except.map]
  · intro err h
    rw [recommend_similar, h]
    rfl

/-- Witness for C10: an empty database yields no query text and an empty
result; a zero-sum weight failure also yields an empty result. -/
theorem claim_C10_witness :
    recommend_similar agEmpty 0 "q" none 5 = [] ∧
    recommend_similar agZeroW 0 "q" (some "x") 5 = [] :=
  ⟨(claim_C10 agEmpty 0 "q" none 5).1 rfl,
    (claim_C10 agZeroW 0 "q" (some "x") 5).2 .zeroDivision agZeroW_body_error⟩

/-- C4: `record_access` upserts the activity record (count 1 if absent,
otherwise increment and refresh `last_accessed`) and then bumps the
co-occurrence edge once per other file accessed within the trailing
5-minute window: `record_access(A)` then `record_access(B)` within the
window leaves edge `(A,B)` at count 1, and a further `record_access(A)`
within the window leaves it at count 2. -/
theorem claim_C4 (idA idB : Int) (pA pB : String) (mA mB : Option Int) (t0 t1 t2 : Int)
    (hid : idA ≠ idB) (hp : pA ≠ pB)
    (hw1 : t1 - cooccurrenceWindow ≤ t0) (hw2 : t2 - cooccurrenceWindow ≤ t1) :
    let db0 : DB := ⟨[⟨idA, pA, mA⟩, ⟨idB, pB, mB⟩], [], [], true, []⟩
    let r1 := record_access db0 t0 pA
    let r2 := record_access r1.2 t1 pB
    let r3 := record_access r2.2 t2 pA
    r1.1 = true ∧ r1.2.fileActivity = [⟨idA, t0, 1⟩] ∧ r1.2.fileCooccurrence = [] ∧
    r2.1 = true ∧ r2.2.fileActivity = [⟨idA, t0, 1⟩, ⟨idB, t1, 1⟩] ∧
    edgeLookup r2.2.fileCooccurrence idA idB = some (some 1) ∧
    r3.1 = true ∧ r3.2.fileActivity = [⟨idA, t2, 2⟩, ⟨idB, t1, 1⟩] ∧
    edgeLookup r3.2.fileCooccurrence idA idB = some (some 2) := by
  intro db0 r1 r2 r3
  have hAB : (pA == pB) = false := beq_eq_false_iff_ne.mpr hp
  have hidBA : idB ≠ idA := fun h => hid h.symm
  have hw1' : t1 ≤ t0 + cooccurrenceWindow := by omega
  have hw2' : t2 ≤ t1 + cooccurrenceWindow := by omega
  have hbneAB : (idA != idB) = true := bne_iff_ne.mpr hid
  have hbneBA : (idB != idA) = true := bne_iff_ne.mpr hidBA
  have h1 : r1 = (true, ⟨[⟨idA, pA, mA⟩, ⟨idB, pB, mB⟩], [], [⟨idA, t0, 1⟩], true, []⟩) := by
    show record_access db0 t0 pA = _
    simp [record_access, lookupFileId, db0, List.find?, upsertActivity, List.filter]
  have h2 : r2 = (true, ⟨[⟨idA, pA, mA⟩, ⟨idB, pB, mB⟩], [],
      [⟨idA, t0, 1⟩, ⟨idB, t1, 1⟩], true,
      [⟨min idA idB, max idA idB, some 1⟩]⟩) := by
    show record_access r1.2 t1 pB = _
    rw [h1]
    simp [record_access, lookupFileId, List.find?, hAB, upsertActivity, hid, List.filter,
      hidBA, hbneAB, hbneBA, hw1', record_cooccurrence, bumpEdge, min_comm idB idA,
      max_comm idB idA]
  have h3 : r3 = (true, ⟨[⟨idA, pA, mA⟩, ⟨idB, pB, mB⟩], [],
      [⟨idA, t2, 2⟩, ⟨idB, t1, 1⟩], true,
      [⟨min idA idB, max idA idB, some 2⟩]⟩) := by
    show record_access r2.2 t2 pA = _
    rw [h2]
    simp [record_access, lookupFileId, List.find?, upsertActivity, hidBA, List.filter,
      hid, hbneAB, hbneBA, hw2', record_cooccurrence, bumpEdge]
  have hedge1 : edgeLookup [⟨min idA idB, max idA idB, some 1⟩] idA idB = some (some 1) := by
    rcases hid.lt_or_lt with h | h
    · simp [edgeLookup, List.find?, min_eq_left h.le, max_eq_right h.le]
    · simp [edgeLookup, List.find?, min_eq_right h.le, max_eq_left h.le, hidBA]
  have hedge2 : edgeLookup [⟨min idA idB, max idA idB, some 2⟩] idA idB = some (some 2) := by
    rcases hid.lt_or_lt with h | h
    · simp [edgeLookup, List.find?, min_eq_left h.le, max_eq_right h.le]
    · simp [edgeLookup, List.find?, min_eq_right h.le, max_eq_left h.le, hidBA]
  rw [h1, h2, h3]
  exact ⟨rfl, rfl, rfl, rfl, rfl, hedge1, rfl, rfl, hedge2⟩

/-- Witness for C4 at concrete ids, paths and timestamps. -/
theorem claim_C4_witness :
    let db0 : DB := ⟨[⟨1, "a", none⟩, ⟨2, "b", none⟩], [], [], true, []⟩
    let r1 := record_access db0 0 "a"
    let r2 := record_access r1.2 100 "b"
    let r3 := record_access r2.2 200 "a"
    r1.1 = true ∧ r1.2.fileActivity = [⟨1, 0, 1⟩] ∧ r1.2.fileCooccurrence = [] ∧
    r2.1 = true ∧ r2.2.fileActivity = [⟨1, 0, 1⟩, ⟨2, 100, 1⟩] ∧
    edgeLookup r2.2.fileCooccurrence 1 2 = some (some 1) ∧
    r3.1 = true ∧ r3.2.fileActivity = [⟨1, 200, 2⟩, ⟨2, 100, 1⟩] ∧
    edgeLookup r3.2.fileCooccurrence 1 2 = some (some 2) :=
  claim_C4 1 2 "a" "b" none none 0 100 200 (by decide) (by decide) (by decide) (by decide)

end AFR
